import Mathlib

/-!
Verification of the service supervisor in `src/service_manager.py`.

The supervisor manages two fixed services, `smtp_server` and `web_interface`.
We give a shallow embedding of the `ServiceManager` class: its per-service
runtime state (`ServiceInfo` plus the per-service PID file), and the pure
state-transformer semantics of `_load_pids` / `_is_our_process` (reconciliation),
`start_service`, `stop_service`, `restart_service`, `get_service_status`,
`start_all`, `stop_all`, `is_port_in_use` and `get_port_conflicts`.

OS interaction (psutil queries, process spawning, signalling outcomes,
the socket table, clocks) is modelled by explicit "world" records supplying
the answers the OS would give; each Python operation becomes a function from
a world and a state to a result and a new state.  Timestamps are naturals,
and the float-valued `cpu_percent` / `memory_mb` fields are rationals (the
sampled values, including the `rss / 1024 / 1024` conversion, are supplied
by the world oracle, since no arithmetic on them is performed by the code
itself).  OS pids are positive, so Python truthiness of `service.pid`
(`None` and `0` are falsy) is modelled as `Option.isSome`.
-/

namespace SvcMgr

/-- Models Python `s.lower()` (ASCII case folding of a command line). -/
def lowerStr (s : String) : String := ⟨s.data.map Char.toLower⟩

/-- Models Python `s.replace("_", "")`: delete every underscore. -/
def stripUnderscores (s : String) : String := ⟨s.data.filter (· ≠ '_')⟩

/-- Models the Python substring test `needle in hay`. -/
def containsSub (needle hay : String) : Bool :=
  (List.range (hay.data.length + 1)).any fun i => needle.data.isPrefixOf (hay.data.drop i)

/-- The `ServiceInfo` dataclass of `service_manager.py` (line 22).  `status` ranges
over the strings "stopped", "starting", "running", "stopping", "error". -/
structure ServiceInfo where
  name : String
  pid : Option Nat := none
  status : String := "stopped"
  port : Option Nat := none
  start_time : Option Nat := none
  cpu_percent : ℚ := 0
  memory_mb : ℚ := 0
  command : String := ""
  log_file : String := ""
deriving DecidableEq

/-- Per-service supervisor state: the in-memory `ServiceInfo` together with the
content of the persisted PID file `logs/pids/<name>.pid` (`none` = absent.
A present file holding a non-integer raises `ValueError` in `_load_pids` and is
unlinked; we model only well-formed records, whose content is a pid). -/
structure SvcState where
  info : ServiceInfo
  record : Option Nat := none
deriving DecidableEq

/-- Registry entry construction (lines 49-62): fresh services are "stopped"
with no pid, no start time and zero usage. -/
def initService (name : String) (port : Nat) (command log_file : String) : ServiceInfo :=
  { name := name, pid := none, status := "stopped", port := some port,
    start_time := none, cpu_percent := 0, memory_mb := 0,
    command := command, log_file := log_file }

/-- The `smtp_server` registry entry; `pyexe` is `sys.executable`. -/
def smtp_server_info (pyexe : String) : ServiceInfo :=
  initService "smtp_server" 1025 (pyexe ++ " smtp_server.py") "logs/smtp_server.log"

/-- The `web_interface` registry entry; `pyexe` is `sys.executable`. -/
def web_interface_info (pyexe : String) : ServiceInfo :=
  initService "web_interface" 5000 (pyexe ++ " web_interface.py") "logs/web_interface.log"

/-- OS oracle for reconciliation: pid liveness (`psutil.pid_exists`), the joined
command line of a live pid (`none` models `psutil.NoSuchProcess` or
`psutil.AccessDenied` raised by `Process(pid)` or `cmdline()`), and the
creation time of a pid (`process.create_time()`). -/
structure ReconWorld where
  pid_exists : Nat → Bool
  cmdline : Nat → Option String
  create_time : Nat → Nat

/-- Embeds `ServiceManager._is_our_process` (lines 122-128): join the command line,
and test whether the service name with underscores removed occurs in the
lowercased command line; psutil errors yield `False`. -/
def is_our_process (service_name : String) (cmdline : Option String) : Bool :=
  match cmdline with
  | none => false
  | some c => containsSub (stripUnderscores service_name) (lowerStr c)

/-- One iteration of `ServiceManager._load_pids` (lines 94-120) for a single
service: `init` is the fresh registry entry for the service and `record` the
content of its PID file.  A live pid passing `_is_our_process` restores
`pid`, sets `status` to "running" and takes `start_time` from the OS
creation time; a dead pid or a foreign command line unlinks the PID file and
leaves the fresh ("stopped") state. -/
def load_pid (w : ReconWorld) (init : ServiceInfo) (record : Option Nat) : SvcState :=
  match record with
  | none => { info := init, record := none }
  | some pid =>
    if w.pid_exists pid then
      if is_our_process init.name (w.cmdline pid) then
        { info := { init with
                      pid := some pid, status := "running",
                      start_time := some (w.create_time pid) },
          record := some pid }
      else
        { info := init, record := none }
    else
      { info := init, record := none }

/-- OS oracle for `start_service`: `pre_alive` answers the `psutil.pid_exists`
call of the already-running check; `spawn` is the pid returned by
`subprocess.Popen` (`none` models the exception branch, where no process is
created); `post_alive` answers `psutil.pid_exists` after the `time.sleep(2)`
grace period; `now` is `datetime.now()`. -/
structure StartWorld where
  pre_alive : Nat → Bool
  spawn : Option Nat
  post_alive : Nat → Bool
  now : Nat

/-- Result of `start_service`: the returned boolean, the new per-service
state, and whether `subprocess.Popen` actually created a process. -/
structure StartResult where
  ok : Bool
  state : SvcState
  spawned : Bool
deriving DecidableEq

/-- Embeds `ServiceManager.start_service` (lines 154-216) for a service present in
the registry (the unknown-name guard lives in `start_service_named` below).
Already "running" with a live pid: no-op success.  Otherwise set "starting",
spawn; on spawn exception set "error" and fail; on success set `pid`,
`start_time := now`, "running", write the PID file, sleep the grace period
and re-check liveness: if the process is gone, set "error" and fail (the PID
file is not removed on this path), else succeed. -/
def start_service (w : StartWorld) (s : SvcState) : StartResult :=
  if s.info.status == "running" &&
      (match s.info.pid with | some p => w.pre_alive p | none => false) then
    { ok := true, state := s, spawned := false }
  else
    let starting : ServiceInfo := { s.info with status := "starting" }
    match w.spawn with
    | none =>
      { ok := false, state := { s with info := { starting with status := "error" } },
        spawned := false }
    | some newPid =>
      let running : ServiceInfo :=
        { starting with
            pid := some newPid, start_time := some w.now, status := "running" }
      let saved : SvcState := { info := running, record := some newPid }
      if w.post_alive newPid then
        { ok := true, state := saved, spawned := true }
      else
        { ok := false, state := { saved with info := { running with status := "error" } },
          spawned := true }

/-- What happens inside the `try` block of `stop_service` once the pid was
found alive: the process exits under the graceful signal (or the force
kill); or `process.wait(timeout=10)` expires and the process is force
killed; or psutil raises `NoSuchProcess` / `AccessDenied`; or some other
exception escapes. -/
inductive StopOutcome where
  | exited
  | timedOutKilled
  | psutilGone
  | otherError
deriving DecidableEq

/-- OS oracle for `stop_service`: pid liveness at the `psutil.pid_exists`
check, and the outcome of signalling that pid. -/
structure StopWorld where
  alive : Nat → Bool
  outcome : Nat → StopOutcome

/-- Embeds `ServiceManager.stop_service` (lines 218-278) for a registered service.
Already "stopped" or pid falsy: no-op success.  Otherwise set "stopping";
if the pid is dead, set "stopped", clear `pid`, remove the PID file and
succeed (`start_time` and usage are left as they were).  If the pid is
alive, signal it (force kill, or graceful with a 10 s timeout escalating to
kill — both leave the same state): on exit, full reset ("stopped", `pid`,
`start_time` cleared, usage zeroed) plus PID file removal; on a psutil
`NoSuchProcess` / `AccessDenied`, set "stopped", clear `pid`, remove the PID
file and still succeed; on any other exception, fail with status left
"stopping". -/
def stop_service (w : StopWorld) (force : Bool) (s : SvcState) : Bool × SvcState :=
  if s.info.status == "stopped" || !s.info.pid.isSome then
    (true, s)
  else
    match s.info.pid with
    | none => (true, s)
    | some p =>
      let stopping : ServiceInfo := { s.info with status := "stopping" }
      if !w.alive p then
        (true, { info := { stopping with status := "stopped", pid := none }, record := none })
      else
        match w.outcome p with
        | .exited =>
          (true, { info := { stopping with
                               status := "stopped", pid := none, start_time := none,
                               cpu_percent := 0, memory_mb := 0 },
                   record := none })
        | .timedOutKilled =>
          (true, { info := { stopping with
                               status := "stopped", pid := none, start_time := none,
                               cpu_percent := 0, memory_mb := 0 },
                   record := none })
        | .psutilGone =>
          (true, { info := { stopping with status := "stopped", pid := none }, record := none })
        | .otherError => (false, { s with info := stopping })

/-- Embeds `ServiceManager.restart_service` (lines 280-292): stop (graceful), and if
that failed return failure; otherwise wait 2 s and start again. -/
def restart_service (wt : StopWorld) (ws : StartWorld) (s : SvcState) : Bool × SvcState :=
  let r1 := stop_service wt false s
  if !r1.1 then (false, r1.2)
  else
    let r2 := start_service ws r1.2
    (r2.ok, r2.state)

/-- OS oracle for status refresh: pid liveness, and the sampled
`(cpu_percent, memory_mb)` pair for a pid (`memory_mb` already carries the
`rss / 1024 / 1024` conversion of line 149; `none` models `NoSuchProcess` /
`AccessDenied` raised while sampling). -/
structure StatusWorld where
  alive : Nat → Bool
  stats : Nat → Option (ℚ × ℚ)

/-- Embeds `ServiceManager._update_service_stats` (lines 142-152): if the pid is set
and alive, sample cpu and memory; if sampling raises, zero both; otherwise
leave the record alone. -/
def update_service_stats (w : StatusWorld) (info : ServiceInfo) : ServiceInfo :=
  match info.pid with
  | some p =>
    if w.alive p then
      match w.stats p with
      | some (cpu, mem) => { info with cpu_percent := cpu, memory_mb := mem }
      | none => { info with cpu_percent := 0, memory_mb := 0 }
    else info
  | none => info

/-- Embeds `ServiceManager.get_service_status` (lines 294-311) for a registered
service: if the tracked status is "running" with a pid set but the pid no
longer exists, self-heal to "stopped" with `pid` and `start_time` cleared
and the PID file removed (usage fields are left as they were); if the pid
still exists, refresh the usage stats. -/
def get_service_status (w : StatusWorld) (s : SvcState) : SvcState :=
  if s.info.status == "running" && s.info.pid.isSome then
    match s.info.pid with
    | some p =>
      if !w.alive p then
        { info := { s.info with status := "stopped", pid := none, start_time := none },
          record := none }
      else
        { s with info := update_service_stats w s.info }
    | none => s
  else s

/-- The two-service manager state: the registry dict of lines 49-62 holds
exactly `smtp_server` and `web_interface`, in that insertion order. -/
structure Mgr where
  smtp_server : SvcState
  web_interface : SvcState
deriving DecidableEq

/-- Dict lookup `self.services[name]` guarded by `name in self.services`. -/
def Mgr.lookup (m : Mgr) (name : String) : Option SvcState :=
  if name == "smtp_server" then some m.smtp_server
  else if name == "web_interface" then some m.web_interface
  else none

/-- Write back the per-service state for `name` (unknown names unchanged). -/
def Mgr.update (m : Mgr) (name : String) (s : SvcState) : Mgr :=
  if name == "smtp_server" then { m with smtp_server := s }
  else if name == "web_interface" then { m with web_interface := s }
  else m

/-- Wrapper of `start_service` including the unknown-service guard of lines 156-158:
a name not in the registry logs an error and returns `False` without
touching any state. -/
def start_service_named (w : StartWorld) (m : Mgr) (name : String) : Bool × Mgr :=
  match m.lookup name with
  | none => (false, m)
  | some s =>
    let r := start_service w s
    (r.ok, m.update name r.state)

/-- Wrapper of `stop_service` including the unknown-service guard of lines 220-222. -/
def stop_service_named (w : StopWorld) (force : Bool) (m : Mgr) (name : String) : Bool × Mgr :=
  match m.lookup name with
  | none => (false, m)
  | some s =>
    let r := stop_service w force s
    (r.1, m.update name r.2)

/-- Wrapper of `get_service_status` including the unknown-service guard of lines
294-297, which returns `None` rather than raising. -/
def get_service_status_named (w : StatusWorld) (m : Mgr) (name : String) :
    Option ServiceInfo × Mgr :=
  match m.lookup name with
  | none => (none, m)
  | some s =>
    let s2 := get_service_status w s
    (some s2.info, m.update name s2)

/-- Observable scheduling events of the composite operations. -/
inductive Event where
  | attemptStart (name : String)
  | attemptStop (name : String)
  | settle (seconds : Nat)
deriving DecidableEq

/-- Embeds `ServiceManager.start_all` (lines 320-336): attempt `smtp_server` first,
`time.sleep(3)`, then attempt `web_interface` regardless of the first
outcome; overall success is the conjunction of the two results. -/
def start_all (w1 w2 : StartWorld) (m : Mgr) : Bool × Mgr × List Event :=
  let r1 := start_service w1 m.smtp_server
  let r2 := start_service w2 m.web_interface
  (r1.ok && r2.ok,
   { smtp_server := r1.state, web_interface := r2.state },
   [Event.attemptStart "smtp_server", Event.settle 3, Event.attemptStart "web_interface"])

/-- Embeds `ServiceManager.stop_all` (lines 338-351): attempt `web_interface` first,
then `smtp_server` regardless of the first outcome; overall success is the
conjunction of the two results. -/
def stop_all (w : StopWorld) (force : Bool) (m : Mgr) : Bool × Mgr × List Event :=
  let r1 := stop_service w force m.web_interface
  let r2 := stop_service w force m.smtp_server
  (r1.1 && r2.1,
   { smtp_server := r2.2, web_interface := r1.2 },
   [Event.attemptStop "web_interface", Event.attemptStop "smtp_server"])

/-- One entry of `psutil.net_connections()`: the local port and whether the
connection status is `psutil.CONN_LISTEN`. -/
structure Conn where
  laddr_port : Nat
  is_listen : Bool
deriving DecidableEq

/-- Embeds `ServiceManager.is_port_in_use` (lines 364-369). -/
def is_port_in_use (conns : List Conn) (port : Nat) : Bool :=
  conns.any fun c => c.laddr_port == port && c.is_listen

/-- Embeds `ServiceManager.get_port_conflicts` (lines 371-379): for each registry
service in order, report `(name, port)` when the service has a port, the
port has a listener, and the tracked status is not "running". -/
def get_port_conflicts (conns : List Conn) (svcs : List ServiceInfo) : List (String × Nat) :=
  svcs.filterMap fun s =>
    match s.port with
    | some port =>
      if is_port_in_use conns port then
        if s.status != "running" then some (s.name, port) else none
      else none
    | none => none

/-- Session invariant relating the PID file to the in-memory state: a
"stopped" service has no PID file, and a PID file implies the `pid` field is
set.  It holds for fresh registry entries and after reconciliation, and is
preserved by every operation (lemmas below); it justifies restricting
stateful theorems to reachable states. -/
def RecordInv (s : SvcState) : Prop :=
  (s.info.status = "stopped" → s.record = none) ∧ (s.record.isSome → s.info.pid.isSome)

/-- Pid/status coupling stated by the spec: `pid` is present iff the status
is one of "starting", "running", "stopping". -/
def PidStatusInv (info : ServiceInfo) : Prop :=
  info.pid.isSome = true ↔
    (info.status = "starting" ∨ info.status = "running" ∨ info.status = "stopping")

instance : DecidablePred RecordInv := fun s => by
  unfold RecordInv; infer_instance

instance : DecidablePred PidStatusInv := fun info => by
  unfold PidStatusInv; infer_instance

/-- Concrete reconciliation world for the failing input of C1: pid 4242 is
alive and its command line is exactly the configured launch command of
`smtp_server`. -/
def c1World : ReconWorld :=
  { pid_exists := fun p => p == 4242,
    cmdline := fun p => if p == 4242 then some "/usr/bin/python3 smtp_server.py" else none,
    create_time := fun _ => 0 }

/-- Fresh smtp service state used by the C2 theorems. -/
def c2State : SvcState := { info := smtp_server_info "/usr/bin/python3", record := none }

/-- Start world for C2: the spawn yields pid 77, which is dead again when the
grace period ends. -/
def c2World : StartWorld :=
  { pre_alive := fun _ => false, spawn := some 77, post_alive := fun _ => false, now := 1000 }

/-- Fresh web service state used by the C3 theorems. -/
def c3State : SvcState := { info := web_interface_info "/usr/bin/python3", record := none }

/-- Start world for C3: the spawn yields pid 91, dead after the grace period. -/
def c3World : StartWorld :=
  { pre_alive := fun _ => false, spawn := some 91, post_alive := fun _ => true, now := 5 }

/-- Start world for the C3 counterexample: pid 91, dead after the grace period. -/
def c3CrashWorld : StartWorld :=
  { pre_alive := fun _ => false, spawn := some 91, post_alive := fun _ => false, now := 5 }

/-- Reconciliation world for the C3 witness: nothing is alive. -/
def c3ReconW : ReconWorld :=
  { pid_exists := fun _ => false, cmdline := fun _ => none, create_time := fun _ => 0 }

/-- Stop world for the C3 witness. -/
def c3StopW : StopWorld := { alive := fun _ => false, outcome := fun _ => StopOutcome.exited }

/-- Status world for the C3 witness. -/
def c3StatusW : StatusWorld := { alive := fun _ => false, stats := fun _ => none }

/-- State for the C4 theorems: a running service (pid 88, started at time
1000, with sampled usage) whose process has silently died. -/
def c4State : SvcState :=
  { info := { smtp_server_info "/usr/bin/python3" with
                pid := some 88, status := "running", start_time := some 1000,
                cpu_percent := 3, memory_mb := 5 },
    record := some 88 }

/-- Stop world for C4: every pid is dead. -/
def c4World : StopWorld := { alive := fun _ => false, outcome := fun _ => StopOutcome.exited }

/-- State for the no-op part of the C4 counterexample: a service whose start
failed with a spawn exception (lines 213-216), leaving status "error" with no
pid and no PID record. -/
def c4NoopState : SvcState :=
  { info := { smtp_server_info "/usr/bin/python3" with status := "error" }, record := none }

/-- State for the C5 witness: a freshly registered, stopped smtp service. -/
def c5State : SvcState := { info := smtp_server_info "/usr/bin/python3", record := none }

/-- Stop world for the C5 witness. -/
def c5World : StopWorld := { alive := fun _ => false, outcome := fun _ => StopOutcome.exited }

/-- State for the C6 witness: a healthy running service with pid 33. -/
def c6State : SvcState :=
  { info := { smtp_server_info "/usr/bin/python3" with
                pid := some 33, status := "running", start_time := some 200 },
    record := some 33 }

/-- Start world for the C6 witness: pid 33 is alive at the pre-check. -/
def c6World : StartWorld :=
  { pre_alive := fun p => p == 33, spawn := some 99, post_alive := fun _ => true, now := 7 }

/-- State for the C9 theorems: a running web service with sampled usage whose
pid 9 has vanished. -/
def c9State : SvcState :=
  { info := { web_interface_info "/usr/bin/python3" with
                pid := some 9, status := "running", start_time := some 500,
                cpu_percent := 13, memory_mb := 7 },
    record := some 9 }

/-- Status world for C9: every pid is dead. -/
def c9World : StatusWorld := { alive := fun _ => false, stats := fun _ => none }

/-- Fresh two-service manager used by the C10 witness. -/
def c10Mgr : Mgr :=
  { smtp_server := { info := smtp_server_info "/usr/bin/python3", record := none },
    web_interface := { info := web_interface_info "/usr/bin/python3", record := none } }

/-- Start world for the C10 witness. -/
def c10StartW : StartWorld :=
  { pre_alive := fun _ => false, spawn := none, post_alive := fun _ => false, now := 0 }

/-- Stop world for the C10 witness. -/
def c10StopW : StopWorld := { alive := fun _ => false, outcome := fun _ => StopOutcome.exited }

/-- Status world for the C10 witness. -/
def c10StatusW : StatusWorld := { alive := fun _ => false, stats := fun _ => none }

end SvcMgr

namespace SvcMgr

theorem running_ne_stopped : ("running" : String) ≠ "stopped" := by decide

theorem error_ne_stopped : ("error" : String) ≠ "stopped" := by decide

theorem stopping_ne_stopped : ("stopping" : String) ≠ "stopped" := by decide

/-- A state with no PID record satisfies the session invariant. -/
theorem recordInv_of_record_none (s : SvcState) (h : s.record = none) : RecordInv s := by
  constructor
  · intro _; exact h
  · intro hr; rw [h] at hr; simp at hr

/-- A state with a pid set and a status other than "stopped" satisfies the
session invariant. -/
theorem recordInv_of_pid_some (s : SvcState) (h1 : s.info.status ≠ "stopped")
    (h2 : s.info.pid.isSome) : RecordInv s :=
  ⟨fun hst => absurd hst h1, fun _ => h2⟩

theorem recordInv_initService (n : String) (pt : Nat) (c l : String) :
    RecordInv { info := initService n pt c l, record := none } :=
  recordInv_of_record_none _ rfl

/-- Reconciliation establishes the session invariant on the fresh registry
entry of every service. -/
theorem recordInv_load_pid (w : ReconWorld) (n : String) (pt : Nat) (c l : String)
    (r : Option Nat) : RecordInv (load_pid w (initService n pt c l) r) := by
  unfold load_pid
  rcases r with _ | pid
  · exact recordInv_of_record_none _ rfl
  · dsimp only
    split
    · split
      · exact recordInv_of_pid_some _ running_ne_stopped rfl
      · exact recordInv_of_record_none _ rfl
    · exact recordInv_of_record_none _ rfl

/-- Operation `start_service` preserves the session invariant. -/
theorem recordInv_start (w : StartWorld) (s : SvcState) (h : RecordInv s) :
    RecordInv (start_service w s).state := by
  unfold start_service
  dsimp only
  split
  · exact h
  · split
    · exact ⟨fun hst => absurd hst error_ne_stopped, fun hr => h.2 hr⟩
    · split
      · exact recordInv_of_pid_some _ running_ne_stopped rfl
      · exact recordInv_of_pid_some _ error_ne_stopped rfl

/-- Operation `stop_service` preserves the session invariant. -/
theorem recordInv_stop (w : StopWorld) (force : Bool) (s : SvcState) (h : RecordInv s) :
    RecordInv (stop_service w force s).2 := by
  unfold stop_service
  dsimp only
  split
  · exact h
  · split
    · exact h
    · split
      · exact recordInv_of_record_none _ rfl
      · split
        · exact recordInv_of_record_none _ rfl
        · exact recordInv_of_record_none _ rfl
        · exact recordInv_of_record_none _ rfl
        · exact ⟨fun hst => absurd hst stopping_ne_stopped, fun hr => h.2 hr⟩

/-- Helper `update_service_stats` touches only the usage fields. -/
theorem update_stats_status (w : StatusWorld) (info : ServiceInfo) :
    (update_service_stats w info).status = info.status := by
  unfold update_service_stats
  split
  · split
    · split <;> rfl
    · rfl
  · rfl

/-- Helper `update_service_stats` leaves the pid unchanged. -/
theorem update_stats_pid (w : StatusWorld) (info : ServiceInfo) :
    (update_service_stats w info).pid = info.pid := by
  unfold update_service_stats
  split
  · split
    · split <;> rfl
    · rfl
  · rfl

/-- Operation `get_service_status` preserves the session invariant. -/
theorem recordInv_status (w : StatusWorld) (s : SvcState) (h : RecordInv s) :
    RecordInv (get_service_status w s) := by
  unfold get_service_status
  split
  next hguard =>
    rcases hp : s.info.pid with _ | p
    · exact h
    · dsimp only
      split
      next => exact recordInv_of_record_none _ rfl
      next =>
        have hrun : s.info.status = "running" := by
          rw [Bool.and_eq_true] at hguard
          simpa using hguard.1
        refine ⟨fun hst => ?_, fun hr => ?_⟩
        · have hst2 : s.info.status = "stopped" := by
            rw [← update_stats_status w s.info]; exact hst
          rw [hrun] at hst2
          exact absurd hst2 (by decide)
        · have h2 := h.2 hr
          show (update_service_stats w s.info).pid.isSome = true
          rw [update_stats_pid]
          exact h2
  next => exact h

end SvcMgr

namespace SvcMgr

/-- C1 (code bug, failing input): the fingerprint used by `_is_our_process` is
the service name with underscores removed ("smtpserver"), but the configured
launch command `sys.executable ++ " smtp_server.py"` keeps the underscore, so
a live process spawned from the own launch command of the service is classified as
foreign: `_is_our_process` returns `False`, and reconciliation unlinks the
PID record and leaves the service "stopped" instead of restoring "running". -/
theorem reconcile_rejects_own_launch_command :
    is_our_process "smtp_server" (some "/usr/bin/python3 smtp_server.py") = false ∧
    load_pid c1World (smtp_server_info "/usr/bin/python3") (some 4242) =
      { info := smtp_server_info "/usr/bin/python3", record := none } ∧
    (load_pid c1World (smtp_server_info "/usr/bin/python3") (some 4242)).info.status
      = "stopped" := by
  refine ⟨by decide, by decide, by decide⟩

end SvcMgr

namespace SvcMgr

/-- Builds the pid/status coupling from the evaluated pid flag and status. -/
theorem pidInv_mk (b : Bool) (st : String) (info : ServiceInfo)
    (hp : info.pid.isSome = b) (hs : info.status = st)
    (h : (b = true) ↔ (st = "starting" ∨ st = "running" ∨ st = "stopping")) :
    PidStatusInv info := by
  unfold PidStatusInv
  rw [hp, hs]
  exact h

/-- Reconciliation establishes the pid/status coupling on every fresh
registry entry. -/
theorem pidInv_load (w : ReconWorld) (n : String) (pt : Nat) (c l : String)
    (r : Option Nat) : PidStatusInv (load_pid w (initService n pt c l) r).info := by
  unfold load_pid
  rcases r with _ | pid
  · exact pidInv_mk false "stopped" _ rfl rfl (by decide)
  · dsimp only
    split
    · split
      · exact pidInv_mk true "running" _ rfl rfl (by decide)
      · exact pidInv_mk false "stopped" _ rfl rfl (by decide)
    · exact pidInv_mk false "stopped" _ rfl rfl (by decide)

/-- A successful `start_service` preserves the pid/status coupling. -/
theorem pidInv_start_ok (w : StartWorld) (s : SvcState) (h : PidStatusInv s.info)
    (hok : (start_service w s).ok = true) :
    PidStatusInv (start_service w s).state.info := by
  by_cases hg : (s.info.status == "running" &&
      (match s.info.pid with | some p => w.pre_alive p | none => false)) = true
  · unfold start_service
    rw [if_pos hg]
    exact h
  · unfold start_service at hok ⊢
    rw [if_neg hg] at hok ⊢
    rcases hsp : w.spawn with _ | newPid <;> rw [hsp] at hok <;> dsimp only at hok ⊢
    · exact absurd hok (by decide)
    · rcases hpa : w.post_alive newPid with _ | _ <;> rw [hpa] at hok
      · rw [if_neg (by decide)] at hok
        exact Bool.noConfusion hok
      · rw [if_pos rfl]
        exact pidInv_mk true "running" _ rfl rfl (by decide)

/-- Operation `stop_service` preserves the pid/status coupling. -/
theorem pidInv_stop (w : StopWorld) (force : Bool) (s : SvcState)
    (h : PidStatusInv s.info) : PidStatusInv (stop_service w force s).2.info := by
  by_cases hg : (s.info.status == "stopped" || !s.info.pid.isSome) = true
  · unfold stop_service
    rw [if_pos hg]
    exact h
  · unfold stop_service
    rw [if_neg hg]
    rcases hq : s.info.pid with _ | q
    · exact h
    · dsimp only
      rcases ha : w.alive q with _ | _
      · rw [if_pos (by decide)]
        exact pidInv_mk false "stopped" _ rfl rfl (by decide)
      · rw [if_neg (by decide)]
        rcases ho : w.outcome q with _ | _ | _ | _ <;> dsimp only
        · exact pidInv_mk false "stopped" _ rfl rfl (by decide)
        · exact pidInv_mk false "stopped" _ rfl rfl (by decide)
        · exact pidInv_mk false "stopped" _ rfl rfl (by decide)
        · refine pidInv_mk true "stopping" _ ?_ rfl (by decide)
          show s.info.pid.isSome = true
          rw [hq]
          rfl

/-- Operation `get_service_status` preserves the pid/status coupling. -/
theorem pidInv_status (w : StatusWorld) (s : SvcState) (h : PidStatusInv s.info) :
    PidStatusInv (get_service_status w s).info := by
  by_cases hg : (s.info.status == "running" && s.info.pid.isSome) = true
  · unfold get_service_status
    rw [if_pos hg]
    rcases hq : s.info.pid with _ | q
    · exact h
    · dsimp only
      rcases ha : w.alive q with _ | _
      · rw [if_pos (by decide)]
        exact pidInv_mk false "stopped" _ rfl rfl (by decide)
      · rw [if_neg (by decide)]
        dsimp only
        unfold PidStatusInv
        rw [update_stats_pid, update_stats_status]
        exact h
  · unfold get_service_status
    rw [if_neg hg]
    exact h

/-- A successful `restart_service` preserves the pid/status coupling. -/
theorem pidInv_restart_ok (wt : StopWorld) (ws : StartWorld) (s : SvcState)
    (h : PidStatusInv s.info) (hok : (restart_service wt ws s).1 = true) :
    PidStatusInv (restart_service wt ws s).2.info := by
  unfold restart_service at hok ⊢
  dsimp only at hok ⊢
  rcases hr1 : (stop_service wt false s).1 with _ | _ <;> rw [hr1] at hok
  · rw [if_pos (by decide)] at hok
    exact Bool.noConfusion hok
  · rw [if_neg (by decide)] at hok ⊢
    dsimp only at hok ⊢
    exact pidInv_start_ok ws (stop_service wt false s).2 (pidInv_stop wt false s h) hok

end SvcMgr

namespace SvcMgr

/-- C3 counterexample: launching a command that dies within the grace window
leaves final status "error" while the pid field is still set (and the claimed
invariant demands `pid = none` whenever the status is Errored). -/
theorem pid_status_invariant_violated :
    (start_service c3CrashWorld c3State).state.info.status = "error" ∧
    (start_service c3CrashWorld c3State).state.info.pid = some 91 ∧
    ¬ PidStatusInv (start_service c3CrashWorld c3State).state.info :=
  ⟨rfl, rfl, by decide⟩

/-- C3 (amended): the pid-iff-live-status coupling (`pid` present iff status
is "starting", "running" or "stopping") holds after reconciliation, and is
preserved by stop, by status refresh, by every start that returns success and
by every restart that returns success; a failed start is the one deviation
(see the counterexample: it can leave "error" with `pid` set). -/
theorem pid_status_invariant_ops (wr : ReconWorld) (n : String) (pt : Nat) (c l : String)
    (r : Option Nat) (ws : StartWorld) (wt : StopWorld) (force : Bool) (wu : StatusWorld)
    (s : SvcState) (h : PidStatusInv s.info) :
    PidStatusInv (load_pid wr (initService n pt c l) r).info ∧
    ((start_service ws s).ok = true → PidStatusInv (start_service ws s).state.info) ∧
    PidStatusInv (stop_service wt force s).2.info ∧
    PidStatusInv (get_service_status wu s).info ∧
    ((restart_service wt ws s).1 = true → PidStatusInv (restart_service wt ws s).2.info) :=
  ⟨pidInv_load wr n pt c l r, fun hok => pidInv_start_ok ws s h hok,
   pidInv_stop wt force s h, pidInv_status wu s h,
   fun hok => pidInv_restart_ok wt ws s h hok⟩

/-- Witness for C3 at concrete inputs: the fresh web service satisfies the
coupling, and the amended theorem applies to it. -/
theorem pid_status_invariant_ops_witness :
    PidStatusInv c3State.info ∧
    (PidStatusInv (load_pid c3ReconW (initService "smtp_server" 1025 "c" "l") none).info ∧
     ((start_service c3World c3State).ok = true →
       PidStatusInv (start_service c3World c3State).state.info) ∧
     PidStatusInv (stop_service c3StopW false c3State).2.info ∧
     PidStatusInv (get_service_status c3StatusW c3State).info ∧
     ((restart_service c3StopW c3World c3State).1 = true →
       PidStatusInv (restart_service c3StopW c3World c3State).2.info)) :=
  ⟨by decide,
   pid_status_invariant_ops c3ReconW "smtp_server" 1025 "c" "l" none c3World c3StopW
     false c3StatusW c3State (by decide)⟩

end SvcMgr

namespace SvcMgr

/-- C2 counterexample: starting the fresh smtp service in a world where the
spawned pid 77 is dead when the grace period ends returns failure with status
"error", but the persisted PID record still holds 77 — it is not cleared as
the claim states. -/
theorem start_crash_record_not_cleared :
    (start_service c2World c2State).ok = false ∧
    (start_service c2World c2State).state.info.status = "error" ∧
    (start_service c2World c2State).state.record = some 77 ∧
    (start_service c2World c2State).state.record ≠ none :=
  ⟨rfl, rfl, rfl, by decide⟩

/-- C2 (amended): when the launched process has exited by the end of the
grace period, `start_service` returns failure with final status "error", and
the persisted PID record is NOT cleared — it keeps the dead pid, and the
in-memory pid field also remains set. -/
theorem start_crash_errored (w : StartWorld) (s : SvcState) (p : Nat)
    (hg : (s.info.status == "running" &&
      (match s.info.pid with | some q => w.pre_alive q | none => false)) = false)
    (hsp : w.spawn = some p) (hdead : w.post_alive p = false) :
    (start_service w s).ok = false ∧
    (start_service w s).state.info.status = "error" ∧
    (start_service w s).state.info.pid = some p ∧
    (start_service w s).state.record = some p := by
  unfold start_service
  rw [if_neg (by simp [hg])]
  rw [hsp]
  dsimp only
  rw [hdead]
  rw [if_neg (by decide)]
  exact ⟨rfl, rfl, rfl, rfl⟩

/-- Witness for C2 at the concrete crash world. -/
theorem start_crash_errored_witness :
    (c2State.info.status == "running" &&
      (match c2State.info.pid with | some q => c2World.pre_alive q | none => false)) = false ∧
    c2World.spawn = some 77 ∧ c2World.post_alive 77 = false ∧
    ((start_service c2World c2State).ok = false ∧
     (start_service c2World c2State).state.info.status = "error" ∧
     (start_service c2World c2State).state.info.pid = some 77 ∧
     (start_service c2World c2State).state.record = some 77) :=
  ⟨by decide, rfl, rfl, start_crash_errored c2World c2State 77 (by decide) rfl rfl⟩

/-- C4 counterexample, in two parts.  First: stopping a running service whose
process has silently died (dead-pid path) returns success, sets "stopped",
clears the pid and removes the PID record, but `start_time` keeps its old
value `some 1000` and the cpu/memory samples keep their old values — they are
not reset as the claim states.  Second: a no-op stop of a service left
"error" with no pid by a spawn-exception start returns success while the
runtime state stays "error", not "stopped". -/
theorem stop_success_start_time_not_cleared :
    ((stop_service c4World false c4State).1 = true ∧
     (stop_service c4World false c4State).2.info.status = "stopped" ∧
     (stop_service c4World false c4State).2.info.pid = none ∧
     (stop_service c4World false c4State).2.record = none ∧
     (stop_service c4World false c4State).2.info.start_time = some 1000 ∧
     (stop_service c4World false c4State).2.info.start_time ≠ none ∧
     (stop_service c4World false c4State).2.info.cpu_percent = 3 ∧
     (stop_service c4World false c4State).2.info.memory_mb = 5) ∧
    (stop_service c4World false c4NoopState = (true, c4NoopState) ∧
     c4NoopState.info.status = "error" ∧
     (stop_service c4World false c4NoopState).2.info.status ≠ "stopped") :=
  ⟨⟨rfl, rfl, rfl, rfl, rfl, by decide, rfl, rfl⟩, ⟨rfl, rfl, by decide⟩⟩

/-- C4 (amended): for every successful `stop_service` call, either the
already-stopped guard fired (status "stopped" or no pid) and the call is a
pure no-op returning success with the whole state — including a possible
"error" status and, in unreachable states, a leftover record — unchanged; or
the call engaged a recorded pid, and then the PID record is absent and the
state is "stopped" with `pid = none`, while `start_time` and the cpu/memory
samples are additionally reset exactly when a live process was actually
terminated (graceful exit or timeout-kill) — on the dead-pid and
no-such-process/access-denied paths they keep their previous values. -/
theorem stop_success_clears (w : StopWorld) (force : Bool) (s : SvcState)
    (hok : (stop_service w force s).1 = true) :
    ((s.info.status == "stopped" || !s.info.pid.isSome) = true →
      stop_service w force s = (true, s)) ∧
    ((s.info.status == "stopped" || !s.info.pid.isSome) = false →
      (stop_service w force s).2.record = none ∧
      (stop_service w force s).2.info.status = "stopped" ∧
      (stop_service w force s).2.info.pid = none ∧
      (∀ p, s.info.pid = some p → w.alive p = true →
        (w.outcome p = StopOutcome.exited ∨ w.outcome p = StopOutcome.timedOutKilled) →
        (stop_service w force s).2.info.start_time = none ∧
        (stop_service w force s).2.info.cpu_percent = 0 ∧
        (stop_service w force s).2.info.memory_mb = 0)) := by
  constructor
  · intro hg
    unfold stop_service
    rw [if_pos hg]
  · intro hg
    unfold stop_service at hok ⊢
    rw [if_neg (by rw [hg]; decide)] at hok ⊢
    rcases hq : s.info.pid with _ | q
    · rw [hq] at hg
      simp at hg
    · rw [hq] at hok
      dsimp only at hok ⊢
      rcases ha : w.alive q with _ | _
      · rw [if_pos (by decide)]
        refine ⟨rfl, rfl, rfl, ?_⟩
        intro p hp hal hout
        injection hp with hpq
        rw [← hpq] at hal
        rw [ha] at hal
        exact Bool.noConfusion hal
      · rw [ha] at hok
        rw [if_neg (by decide)] at hok ⊢
        rcases ho : w.outcome q with _ | _ | _ | _ <;> rw [ho] at hok <;> dsimp only at hok ⊢
        · exact ⟨rfl, rfl, rfl, fun p hp hal hout => ⟨rfl, rfl, rfl⟩⟩
        · exact ⟨rfl, rfl, rfl, fun p hp hal hout => ⟨rfl, rfl, rfl⟩⟩
        · refine ⟨rfl, rfl, rfl, ?_⟩
          intro p hp hal hout
          injection hp with hpq
          rw [← hpq] at hout
          rcases hout with hx | hx <;> rw [ho] at hx <;> exact StopOutcome.noConfusion hx
        · exact Bool.noConfusion hok

/-- Witness for C4 at the concrete dead-pid input (the engaged branch of the
amended theorem applies; the no-op branch is vacuous there). -/
theorem stop_success_clears_witness :
    (stop_service c4World false c4State).1 = true ∧
    (((c4State.info.status == "stopped" || !c4State.info.pid.isSome) = true →
       stop_service c4World false c4State = (true, c4State)) ∧
     ((c4State.info.status == "stopped" || !c4State.info.pid.isSome) = false →
       (stop_service c4World false c4State).2.record = none ∧
       (stop_service c4World false c4State).2.info.status = "stopped" ∧
       (stop_service c4World false c4State).2.info.pid = none ∧
       (∀ p, c4State.info.pid = some p → c4World.alive p = true →
         (c4World.outcome p = StopOutcome.exited ∨
          c4World.outcome p = StopOutcome.timedOutKilled) →
         (stop_service c4World false c4State).2.info.start_time = none ∧
         (stop_service c4World false c4State).2.info.cpu_percent = 0 ∧
         (stop_service c4World false c4State).2.info.memory_mb = 0))) :=
  ⟨rfl, stop_success_clears c4World false c4State rfl⟩

/-- C5: stopping a service that is already "stopped" (given the session
invariant relating the record to the in-memory state), or whose pid no
longer exists, returns success — never an error — and leaves no PID record. -/
theorem stop_idempotent (w : StopWorld) (force : Bool) (s : SvcState)
    (hinv : RecordInv s)
    (h : s.info.status = "stopped" ∨ ∃ p, s.info.pid = some p ∧ w.alive p = false) :
    (stop_service w force s).1 = true ∧ (stop_service w force s).2.record = none := by
  by_cases hs : s.info.status = "stopped"
  · have hgt : (s.info.status == "stopped" || !s.info.pid.isSome) = true := by
      simp [hs]
    unfold stop_service
    rw [if_pos hgt]
    exact ⟨rfl, hinv.1 hs⟩
  · rcases h with h | ⟨p, hp, hdead⟩
    · exact absurd h hs
    · by_cases hgt : (s.info.status == "stopped" || !s.info.pid.isSome) = true
      · rw [Bool.or_eq_true] at hgt
        rcases hgt with hgt | hgt
        · exact absurd (by simpa using hgt) hs
        · rw [hp] at hgt
          simp at hgt
      · unfold stop_service
        rw [if_neg hgt]
        rw [hp]
        dsimp only
        rw [hdead]
        rw [if_pos (by decide)]
        exact ⟨rfl, rfl⟩

/-- Witness for C5: a freshly registered (stopped, record-free) service. -/
theorem stop_idempotent_witness :
    RecordInv c5State ∧ c5State.info.status = "stopped" ∧
    ((stop_service c5World false c5State).1 = true ∧
     (stop_service c5World false c5State).2.record = none) :=
  ⟨by decide, rfl, stop_idempotent c5World false c5State (by decide) (Or.inl rfl)⟩

/-- C6: starting a service that is already "running" with a live pid is a
no-op that returns success without spawning; hence two consecutive start
calls on such a service both succeed, change nothing, and spawn no second
process — exactly one live process remains. -/
theorem start_idempotent (w1 w2 : StartWorld) (s : SvcState) (p : Nat)
    (hst : s.info.status = "running") (hp : s.info.pid = some p)
    (ha1 : w1.pre_alive p = true) (ha2 : w2.pre_alive p = true) :
    start_service w1 s = { ok := true, state := s, spawned := false } ∧
    start_service w2 s = { ok := true, state := s, spawned := false } := by
  constructor
  · unfold start_service
    rw [if_pos (by rw [hst, hp]; simp [ha1])]
  · unfold start_service
    rw [if_pos (by rw [hst, hp]; simp [ha2])]

/-- Witness for C6: a healthy running service with live pid 33. -/
theorem start_idempotent_witness :
    c6State.info.status = "running" ∧ c6State.info.pid = some 33 ∧
    c6World.pre_alive 33 = true ∧
    (start_service c6World c6State = { ok := true, state := c6State, spawned := false } ∧
     start_service c6World c6State = { ok := true, state := c6State, spawned := false }) :=
  ⟨rfl, rfl, rfl, start_idempotent c6World c6World c6State 33 rfl rfl rfl rfl⟩

end SvcMgr

namespace SvcMgr

/-- C7: `start_all` attempts `smtp_server` strictly before `web_interface`
with a 3-second settle delay between them, and `stop_all` stops in the
reverse order; both services are always attempted (the final manager state
carries both per-service results regardless of either boolean), and the
aggregate result is success iff every individual operation succeeded. -/
theorem all_ops_order (w1 w2 : StartWorld) (wt : StopWorld) (force : Bool) (m : Mgr) :
    (start_all w1 w2 m).2.2 =
      [Event.attemptStart "smtp_server", Event.settle 3, Event.attemptStart "web_interface"] ∧
    (stop_all wt force m).2.2 =
      [Event.attemptStop "web_interface", Event.attemptStop "smtp_server"] ∧
    ((start_all w1 w2 m).1 = true ↔
      (start_service w1 m.smtp_server).ok = true ∧
      (start_service w2 m.web_interface).ok = true) ∧
    (start_all w1 w2 m).2.1 =
      { smtp_server := (start_service w1 m.smtp_server).state,
        web_interface := (start_service w2 m.web_interface).state } ∧
    ((stop_all wt force m).1 = true ↔
      (stop_service wt force m.web_interface).1 = true ∧
      (stop_service wt force m.smtp_server).1 = true) ∧
    (stop_all wt force m).2.1 =
      { smtp_server := (stop_service wt force m.smtp_server).2,
        web_interface := (stop_service wt force m.web_interface).2 } := by
  refine ⟨rfl, rfl, ?_, rfl, ?_, rfl⟩ <;>
    simp [start_all, stop_all, Bool.and_eq_true]

/-- C8: for arbitrary socket tables and service lists, `(name, port)` is
reported by `get_port_conflicts` exactly when some listed service carries
that name, has that configured port, the OS socket table shows a listener on
the port, and the tracked status is not "running" — in particular a listener
on the port of a service whose status is "running" is never reported for it. -/
theorem port_conflict_iff (conns : List Conn) (svcs : List ServiceInfo)
    (name : String) (port : Nat) :
    (name, port) ∈ get_port_conflicts conns svcs ↔
      ∃ s, s ∈ svcs ∧ s.name = name ∧ s.port = some port ∧
        is_port_in_use conns port = true ∧ s.status ≠ "running" := by
  unfold get_port_conflicts
  rw [List.mem_filterMap]
  constructor
  · rintro ⟨s, hs, hf⟩
    rcases hsport : s.port with _ | sp <;> rw [hsport] at hf <;> dsimp only at hf
    · exact absurd hf (by simp)
    · by_cases hu : is_port_in_use conns sp = true
      · rw [if_pos hu] at hf
        by_cases hr : (s.status != "running") = true
        · rw [if_pos hr] at hf
          rw [Option.some.injEq, Prod.mk.injEq] at hf
          obtain ⟨hn, hpp⟩ := hf
          subst hpp
          exact ⟨s, hs, hn, hsport, hu, by simpa [bne_iff_ne] using hr⟩
        · rw [if_neg hr] at hf
          exact absurd hf (by simp)
      · rw [if_neg hu] at hf
        exact absurd hf (by simp)
  · rintro ⟨s, hs, hn, hpp, hu, hr⟩
    refine ⟨s, hs, ?_⟩
    rw [hpp]
    dsimp only
    rw [if_pos hu, if_pos (by simpa [bne_iff_ne] using hr), hn]

/-- C9 counterexample: a status query on a running service whose pid has
vanished self-heals to "stopped", clears pid and start_time and removes the
PID record, but the cpu/memory samples keep their previous values — they are
not reset to zero as the claim states. -/
theorem status_self_heal_keeps_usage :
    (get_service_status c9World c9State).info.status = "stopped" ∧
    (get_service_status c9World c9State).info.pid = none ∧
    (get_service_status c9World c9State).info.start_time = none ∧
    (get_service_status c9World c9State).record = none ∧
    (get_service_status c9World c9State).info.cpu_percent = 13 ∧
    (get_service_status c9World c9State).info.memory_mb = 7 ∧
    (13 : ℚ) ≠ 0 :=
  ⟨rfl, rfl, rfl, rfl, rfl, rfl, by decide⟩

/-- C9 (amended): for a service tracked as "running" whose pid no longer
exists, a status query resets the state to "stopped" with `pid` and
`start_time` cleared and removes the PID record; the cpu/memory samples are
NOT touched on this path — they keep their last sampled values (they are
zeroed only when psutil raises during a stats refresh of a live pid). -/
theorem status_self_heal (w : StatusWorld) (s : SvcState) (p : Nat)
    (hst : s.info.status = "running") (hp : s.info.pid = some p)
    (hdead : w.alive p = false) :
    get_service_status w s =
      { info := { s.info with status := "stopped", pid := none, start_time := none },
        record := none } ∧
    (get_service_status w s).info.cpu_percent = s.info.cpu_percent ∧
    (get_service_status w s).info.memory_mb = s.info.memory_mb := by
  have hmain : get_service_status w s =
      { info := { s.info with status := "stopped", pid := none, start_time := none },
        record := none } := by
    have hgt : (s.info.status == "running" && s.info.pid.isSome) = true := by
      rw [hst, hp]
      simp
    unfold get_service_status
    rw [if_pos hgt]
    rw [hp]
    dsimp only
    rw [hdead]
    rw [if_pos (by decide)]
  exact ⟨hmain, by rw [hmain], by rw [hmain]⟩

/-- Witness for C9 at the concrete vanished-pid input. -/
theorem status_self_heal_witness :
    c9State.info.status = "running" ∧ c9State.info.pid = some 9 ∧
    c9World.alive 9 = false ∧
    (get_service_status c9World c9State =
      { info := { c9State.info with status := "stopped", pid := none, start_time := none },
        record := none } ∧
     (get_service_status c9World c9State).info.cpu_percent = c9State.info.cpu_percent ∧
     (get_service_status c9World c9State).info.memory_mb = c9State.info.memory_mb) :=
  ⟨rfl, rfl, rfl, status_self_heal c9World c9State 9 rfl rfl rfl⟩

/-- C10: for every name other than "smtp_server" and "web_interface",
`start_service` and `stop_service` return failure without touching any
runtime state or PID record, and `get_service_status` returns `none` rather
than raising. -/
theorem unknown_service_noop (ws : StartWorld) (wt : StopWorld) (force : Bool)
    (wu : StatusWorld) (m : Mgr) (name : String)
    (h1 : name ≠ "smtp_server") (h2 : name ≠ "web_interface") :
    start_service_named ws m name = (false, m) ∧
    stop_service_named wt force m name = (false, m) ∧
    get_service_status_named wu m name = (none, m) := by
  have hl : m.lookup name = none := by
    unfold Mgr.lookup
    rw [if_neg (by simpa using h1), if_neg (by simpa using h2)]
  refine ⟨?_, ?_, ?_⟩ <;>
    simp [start_service_named, stop_service_named, get_service_status_named, hl]

/-- Witness for C10 at the unknown name "mailer". -/
theorem unknown_service_noop_witness :
    "mailer" ≠ "smtp_server" ∧ "mailer" ≠ "web_interface" ∧
    (start_service_named c10StartW c10Mgr "mailer" = (false, c10Mgr) ∧
     stop_service_named c10StopW false c10Mgr "mailer" = (false, c10Mgr) ∧
     get_service_status_named c10StatusW c10Mgr "mailer" = (none, c10Mgr)) :=
  ⟨by decide, by decide,
   unknown_service_noop c10StartW c10StopW false c10StatusW c10Mgr "mailer"
     (by decide) (by decide)⟩

end SvcMgr
